import Mathlib

/-!
Verification of the InboxGuard classification-and-action pipeline.

This file gives a shallow embedding, in Lean 4, of the decision logic of the
InboxGuard repository: the classifier of model-service/main.py, the verdict
store writer of start.py and reader of actions-service/main.py, the action
mapper of actions-service/main.py, the extraction scripts of email-service,
and the standalone IMAP action script actions-service/imap_action.py.
Python floats are modelled by rationals, Python ints by integers, JSON
documents by an explicit inductive type, and side effects (IMAP commands,
file writes, process exit codes) by explicit result values and operation
traces.  Theorems about the embedding settle the specified properties.
-/

namespace InboxGuard

/-! ## Model service (model-service/main.py) -/

/-- An input email record as accepted by the model service
(class EmailInput in model-service/main.py). -/
structure EmailInput where
  id : String
  sender : String
  subject : String
  body : String
deriving DecidableEq, Repr

/-- The verdict for one email (class PredictionResult in
model-service/main.py).  The audit field input_source is the
(subject, sender) pair. -/
structure PredictionResult where
  id : String
  prediction : ℤ
  confidence : ℚ
  message : String
  input_source : String × String
deriving DecidableEq, Repr

/-- The external scoring oracle: model.predict and model.predict_proba
combined, giving the predicted class and the class-probability vector for a
text.  The model service loads it at startup; its absence aborts the whole
pass, so the embedding takes a total oracle as a parameter. -/
abbrev Oracle := String → ℤ × List ℚ

/-- Python str.strip: remove leading and trailing whitespace.  Modelled
explicitly over the character list so that it evaluates inside the
kernel. -/
def py_strip (s : String) : String :=
  ⟨((s.data.dropWhile Char.isWhitespace).reverse.dropWhile Char.isWhitespace).reverse⟩

/-- extract_email_text of model-service/main.py: subject and body joined by
one space, then stripped. -/
def extract_email_text (email_data : EmailInput) : String :=
  py_strip (email_data.subject ++ " " ++ email_data.body)

/-- Python max over a list of rationals; max(probabilities) in
analyze_email is only reached with the nonempty probability vector of the
classifier, so the value returned on [] is irrelevant there. -/
def pyListMax : List ℚ → ℚ
  | [] => 0
  | x :: xs => xs.foldl max x

/-- analyze_email of model-service/main.py (lines 65 to 101).  Empty text
short-circuits to prediction 0 (the comment in the source reads
"Suspicious now returns 0") with confidence 0.0 and never consults the
oracle; otherwise the oracle is scored, confidence is the maximum class
probability, and a confidence below 0.7 demotes the prediction to -1
(Suspicious) while a confidence of at least 0.7 passes the predicted class
through. -/
def analyze_email (oracle : Oracle) (email_data : EmailInput) : PredictionResult :=
  let email_text := extract_email_text email_data
  if email_text = "" then
    { id := email_data.id
      prediction := 0
      confidence := 0
      message := "Empty email content"
      input_source := (email_data.subject, email_data.sender) }
  else
    let prediction := (oracle email_text).1
    let confidence := pyListMax (oracle email_text).2
    if confidence < 7/10 then
      { id := email_data.id
        prediction := -1
        confidence := confidence
        message := "Suspicious email - uncertain classification"
        input_source := (email_data.subject, email_data.sender) }
    else
      { id := email_data.id
        prediction := prediction
        confidence := confidence
        message := if prediction = 1 then "Phishing email detected" else "Legitimate email"
        input_source := (email_data.subject, email_data.sender) }

/-- The summary tally of a batch response. -/
structure Summary where
  total : ℕ
  phishing : ℕ
  legitimate : ℕ
  suspicious : ℕ
deriving DecidableEq, Repr

/-- The summary statistics computed by detect_phishing_batch in
model-service/main.py (lines 204 to 209): the batch size and, for each
label value, the number of results carrying it. -/
def summary_of (results : List PredictionResult) : Summary :=
  { total := results.length
    phishing := (results.filter (fun r => r.prediction = 1)).length
    legitimate := (results.filter (fun r => r.prediction = 0)).length
    suspicious := (results.filter (fun r => r.prediction = -1)).length }

/-- The response of the batch endpoint (class BatchPredictionResponse). -/
structure BatchPredictionResponse where
  status : String
  results : List PredictionResult
  summary : Summary

/-- detect_phishing_batch of model-service/main.py (lines 194 to 217):
each email is analyzed in order and the summary is tallied over the
results. -/
def detect_phishing_batch (oracle : Oracle) (emails : List EmailInput) :
    BatchPredictionResponse :=
  let results := emails.map (analyze_email oracle)
  { status := "success", results := results, summary := summary_of results }

/-! ## JSON values and the verdict store

The verdict store is the pair of save_predictions in start.py (the writer)
and load_latest_predictions in actions-service/main.py (the reader).  A
JSON document is modelled by an inductive type; numbers are integers,
which covers every value the repository writes (prediction labels). -/

/-- A JSON document. -/
inductive Json where
  | null : Json
  | bool (b : Bool) : Json
  | num (n : ℤ) : Json
  | str (s : String) : Json
  | arr (items : List Json) : Json
  | obj (fields : List (String × Json)) : Json

/-- Python truthiness of a JSON value, as used by the or-chains in
load_latest_predictions. -/
def json_truthy : Json → Bool
  | Json.null => false
  | Json.bool b => b
  | Json.num n => decide (n ≠ 0)
  | Json.str s => decide (s ≠ "")
  | Json.arr items => !items.isEmpty
  | Json.obj fields => !fields.isEmpty

/-- A JSON scalar rendered as a Python dict key.  The loader keys its
predictions dict by values taken from the file; every key the repository
writes is a string.  A list or object key would be unhashable and raise
TypeError in Python, aborting the whole load to the empty mapping; that
shape never occurs in files written by this repository and is modelled as
a skip. -/
def json_dict_key : Json → Option String
  | Json.str s => some s
  | Json.num n => some (toString n)
  | _ => none

/-- Python dict assignment d[k] = v on an association list: overwrite in
place when the key exists, append otherwise. -/
def dict_set (m : List (String × Json)) (k : String) (v : Json) :
    List (String × Json) :=
  if (List.lookup k m).isSome then
    m.map (fun kv => if kv.1 = k then (k, v) else kv)
  else m ++ [(k, v)]

/-- item.get(k) followed by the Python truthiness test: a missing key and
a falsy value (such as null or the empty string) both fall through an
or-chain. -/
def truthy_get (fields : List (String × Json)) (k : String) : Option Json :=
  match List.lookup k fields with
  | some v => if json_truthy v then some v else none
  | none => none

/-- One line written by save_predictions of start.py (lines 169 to 183):
the simplified OpenAI-batch shaped record holding only the namespaced uid
and the prediction serialized as text. -/
def prediction_line (uid : String) (prediction : ℤ) : Json :=
  Json.obj
    [("custom_id", Json.str ("email_" ++ uid)),
     ("response", Json.obj
       [("body", Json.obj
         [("choices", Json.arr
           [Json.obj
             [("message", Json.obj
               [("content", Json.str (toString prediction))])]])])])]

/-- save_predictions of start.py (lines 109 to 208): every result holding
both a uid and a prediction becomes one simplified record, and the records
are written newline-delimited, one JSON object per line.  The input is the
list of (uid, prediction) pairs of those results; the output is the file
content as the list of JSON documents on its lines. -/
def save_predictions (results : List (String × ℤ)) : List Json :=
  results.map (fun r => prediction_line r.1 r.2)

/-- Python json.load applied to a whole file: it succeeds exactly when the
file holds one JSON document, so a newline-delimited file with zero or at
least two records raises JSONDecodeError (modelled as none). -/
def json_load : List Json → Option Json
  | [doc] => some doc
  | _ => none

/-- Python json.loads applied to the message content string of an
OpenAI-shaped record.  The repository only ever writes integer literals
there (str(prediction) in save_predictions), so the model parses exactly
the integer literals and treats everything else as the JSONDecodeError
path (modelled as none, and skipped by the caller). -/
def json_loads_int (s : String) : Option Json :=
  match s.toInt? with
  | some n => some (Json.num n)
  | none => none

/-- The nested extraction response.body.choices[0].message.content of
load_latest_predictions (lines 106 to 121 of actions-service/main.py),
ending in json.loads of the content string.  Shapes in which one of the
intermediate values is not an object or the choices list is empty are
skipped, as in the source (a non-dict intermediate value never occurs in
files written by this repository). -/
def openai_content (item_fields : List (String × Json)) : Option Json :=
  match List.lookup "response" item_fields with
  | some (Json.obj response) =>
    (match List.lookup "body" response with
     | some (Json.obj body) =>
       (match List.lookup "choices" body with
        | some (Json.arr (Json.obj choice0 :: _)) =>
          (match List.lookup "message" choice0 with
           | some (Json.obj msg) =>
             (match List.lookup "content" msg with
              | some (Json.str content) => json_loads_int content
              | _ => json_loads_int "")
           | _ => json_loads_int "")
        | _ => none)
     | _ => none)
  | _ => none

/-- One item of the results array (lines 97 to 121 of
actions-service/main.py): a record holding uid and prediction is stored
whole under its uid; otherwise a record holding custom_id and response has
its nested content parsed and stored under the custom_id. -/
def parse_results_item (acc : List (String × Json)) (item : Json) :
    List (String × Json) :=
  match item with
  | Json.obj f =>
    if (List.lookup "uid" f).isSome && (List.lookup "prediction" f).isSome then
      match List.lookup "uid" f with
      | some u =>
        (match json_dict_key u with
         | some k => dict_set acc k item
         | none => acc)
      | none => acc
    else if (List.lookup "custom_id" f).isSome &&
        (List.lookup "response" f).isSome then
      match List.lookup "custom_id" f with
      | some cu =>
        (match json_dict_key cu with
         | some k =>
           (match openai_content f with
            | some pd => dict_set acc k pd
            | none => acc)
         | none => acc)
      | none => acc
    else acc
  | _ => acc

/-- One key-value entry of the unknown-structure scan (lines 136 to 150 of
actions-service/main.py): list values are scanned for prediction-like
records keyed by custom_id, id or a synthesized key_index name; dict
values with a prediction or custom_id field are stored under their own
key. -/
def parse_unknown_entry (acc : List (String × Json)) (kv : String × Json) :
    List (String × Json) :=
  match kv.2 with
  | Json.arr items =>
    items.enum.foldl (fun a p =>
      match p.2 with
      | Json.obj f =>
        if (List.lookup "prediction" f).isSome ||
            (List.lookup "custom_id" f).isSome then
          match
            (match truthy_get f "custom_id" with
             | some v => json_dict_key v
             | none =>
               (match truthy_get f "id" with
                | some v => json_dict_key v
                | none => some (kv.1 ++ "_" ++ toString p.1))) with
          | some k => dict_set a k p.2
          | none => a
        else a
      | _ => a) acc
  | Json.obj f =>
    if (List.lookup "prediction" f).isSome ||
        (List.lookup "custom_id" f).isSome then
      dict_set acc kv.1 kv.2
    else acc
  | _ => acc

/-- The schema-sniffing conversion of a parsed response document into the
uid-to-prediction mapping, lines 89 to 163 of actions-service/main.py: a
results array is scanned item by item; otherwise a dict whose non-null
values are all dicts is taken as a direct uid mapping; otherwise a
predictions wrapper is unwrapped (a non-dict predictions value makes the
later keys() call raise, so the load degrades to the empty mapping);
otherwise the unknown-structure scan runs; a top-level list is keyed by
id, custom_id or position. -/
def convert_predictions (doc : Json) : List (String × Json) :=
  match doc with
  | Json.obj fields =>
    (match List.lookup "results" fields with
     | some (Json.arr items) => items.foldl parse_results_item []
     | _ =>
       if fields.all (fun kv =>
           match kv.2 with
           | Json.null => true
           | Json.obj _ => true
           | _ => false) then
         fields
       else
         match List.lookup "predictions" fields with
         | some (Json.obj preds) => preds
         | some _ => []
         | none => fields.foldl parse_unknown_entry [])
  | Json.arr items =>
    items.enum.foldl (fun a p =>
      match p.2 with
      | Json.obj f =>
        (match
          (match truthy_get f "id" with
           | some v => json_dict_key v
           | none =>
             (match truthy_get f "custom_id" with
              | some v => json_dict_key v
              | none => some (toString p.1))) with
         | some k => dict_set a k p.2
         | none => a)
      | _ => a) []
  | _ => []

/-- A candidate file of the responses directory: its name, its filesystem
modification time, and its content as the list of JSON documents on its
lines. -/
structure FileRec where
  name : String
  mtime : ℤ
  content : List Json

/-- The glob pattern batch_api_response_*.json of load_latest_predictions
(line 71 of actions-service/main.py). -/
def matches_pattern (name : String) : Bool :=
  List.isPrefixOf "batch_api_response_".data name.data &&
  List.isSuffixOf ".json".data name.data

/-- Python max(files, key=os.path.getmtime): the first file of the list
whose modification time is maximal (a later file replaces the current best
only when strictly greater). -/
def py_max_by_mtime (files : List FileRec) : Option FileRec :=
  match files with
  | [] => none
  | f :: rest =>
    some (rest.foldl (fun best x => if best.mtime < x.mtime then x else best) f)

/-- Parsing one selected file: json.load on the whole file, then the
schema-sniffing conversion; a JSONDecodeError is caught by the enclosing
handler of load_latest_predictions, which returns the empty mapping. -/
def parse_file_content (content : List Json) : List (String × Json) :=
  match json_load content with
  | some doc => convert_predictions doc
  | none => []

/-- load_latest_predictions of actions-service/main.py (lines 60 to 167):
filter the directory by the naming convention, warn and return the empty
mapping when nothing matches, otherwise parse the file with the greatest
modification time, degrading to the empty mapping when it cannot be
parsed. -/
def load_latest_predictions (files : List FileRec) : List (String × Json) :=
  match py_max_by_mtime (files.filter (fun f => matches_pattern f.name)) with
  | none => []
  | some latest => parse_file_content latest.content

/-! ## Action mapper (actions-service/main.py) -/

/-- One IMAP command issued by the Gmail processor, in issue order. -/
inductive MailOp where
  | select (mailbox : String)
  | store_flag (uid : String) (flag : String)
  | expunge
  | add_gm_label (uid : String) (label : String)
  | remove_gm_label (uid : String) (label : String)
deriving DecidableEq, Repr

/-- Whether a command mutates the mailbox; selecting a folder does not. -/
def MailOp.isMutation : MailOp → Bool
  | MailOp.select _ => false
  | _ => true

/-- perform_action of actions-service/main.py (lines 235 to 276), the
destructive strategy: INBOX is selected first; prediction 1 permanently
deletes (Deleted flag plus expunge), prediction -1 adds the suspicious
label and removes the Inbox label, prediction 0 does nothing, and any
other value only logs a warning and reports failure.  The result is the
list of issued commands and the returned success flag. -/
def perform_action (email_uid : String) (prediction : ℤ) :
    List MailOp × Bool :=
  if prediction = 1 then
    ([MailOp.select "INBOX",
      MailOp.store_flag email_uid "\\Deleted",
      MailOp.expunge], true)
  else if prediction = -1 then
    ([MailOp.select "INBOX",
      MailOp.add_gm_label email_uid "suspicious",
      MailOp.remove_gm_label email_uid "\\Inbox"], true)
  else if prediction = 0 then
    ([MailOp.select "INBOX"], true)
  else
    ([MailOp.select "INBOX"], false)

/-- process_email_by_uid of actions-service/main.py (lines 278 to 326):
reject non-dict prediction data and a missing (or null) prediction value
before any IMAP command is issued; a boolean prediction compares equal to
1 or 0 in Python and acts accordingly; any other non-integer value reaches
the unknown branch of perform_action after the INBOX select. -/
def process_email_by_uid (email_uid : String) (prediction_data : Json) :
    List MailOp × Bool :=
  match prediction_data with
  | Json.obj fields =>
    (match List.lookup "prediction" fields with
     | none => ([], false)
     | some Json.null => ([], false)
     | some (Json.num p) => perform_action email_uid p
     | some (Json.bool b) => perform_action email_uid (if b then 1 else 0)
     | some _ => ([MailOp.select "INBOX"], false))
  | _ => ([], false)

/-- A stored prediction entry whose prediction value is missing, null,
non-numeric, or an integer outside the three label values.  (A boolean is
not such an entry: Python True equals 1 and False equals 0.) -/
def bad_prediction (prediction_data : Json) : Bool :=
  match prediction_data with
  | Json.obj fields =>
    (match List.lookup "prediction" fields with
     | none => true
     | some Json.null => true
     | some (Json.num p) => decide (p ≠ 1 ∧ p ≠ -1 ∧ p ≠ 0)
     | some (Json.bool _) => false
     | some _ => true)
  | _ => true

/-- process_all_predictions of actions-service/main.py (lines 328 to 362):
every loaded (uid, prediction data) item is processed in order and its
success flag recorded in the per-id result map; one bad item never aborts
the batch. -/
def process_all_predictions (predictions_data : List (String × Json)) :
    List (String × Bool) :=
  predictions_data.map (fun kv => (kv.1, (process_email_by_uid kv.1 kv.2).2))

/-! ## Extractor (email-service/main.py and extract_emails_pop.py) -/

/-- One MIME part of a fetched message as it appears to the extraction
code: its content type, the string form of its Content-Disposition header
(str of the header object, or of the get default when absent), the result
of get_payload(decode=True).decode(..., errors=...) when that succeeds
(none models the attempt raising, such as a None payload), and
str(part.get_payload()) as the raw fallback text. -/
structure MailPart where
  content_type : String
  content_disposition : String
  decoded : Option String
  raw : String

/-- A fetched message: either single-part or multipart with its parts in
msg.walk() order. -/
inductive Msg where
  | single (p : MailPart)
  | multipart (parts : List MailPart)

/-- Python substring membership, needle in haystack, over characters. -/
def str_contains (haystack needle : String) : Bool :=
  haystack.data.tails.any (fun t => List.isPrefixOf needle.data t)

/-- The accumulation loop of get_email_body in email-service/main.py
(lines 58 to 72): every part whose content type is text/plain is decoded
and appended, with str(part.get_payload()) substituted when decoding
raises; there is no attachment check and no break. -/
def get_email_body_loop (body : String) : List MailPart → String
  | [] => body
  | part :: rest =>
    if part.content_type = "text/plain" then
      get_email_body_loop
        (body ++ (match part.decoded with | some s => s | none => part.raw)) rest
    else get_email_body_loop body rest

/-- get_email_body of email-service/main.py: multipart messages
concatenate every text/plain part; single-part messages decode the sole
payload, substituting the raw payload text when decoding raises.  The
function is total: extraction never raises. -/
def get_email_body : Msg → String
  | Msg.single p => (match p.decoded with | some s => s | none => p.raw)
  | Msg.multipart parts => get_email_body_loop "" parts

/-- The body extraction of email-service/extract_emails_pop.py (lines 55
to 70): for multipart messages the first text/plain part whose
Content-Disposition does not contain attachment is decoded (the loop
breaks there even when decoding raised, leaving the empty string); for
single-part messages the sole payload is decoded, with the empty string on
a raising decode.  Total as well. -/
def pop_extract_body : Msg → String
  | Msg.multipart parts =>
    (match parts.find? (fun part =>
        part.content_type == "text/plain" &&
        !(str_contains part.content_disposition "attachment")) with
     | some part => (match part.decoded with | some s => s | none => "")
     | none => "")
  | Msg.single p => (match p.decoded with | some s => s | none => "")

/-- The multipart body the amended claim describes for the IMAP variant:
the concatenation, in walk order, of the decoded text of every text/plain
part (raw payload text when decoding raises). -/
def concat_text_plain_parts : List MailPart → String
  | [] => ""
  | part :: rest =>
    (if part.content_type = "text/plain" then
      (match part.decoded with | some s => s | none => part.raw)
    else "") ++ concat_text_plain_parts rest

/-- One fetched and parsed message of email-service/main.py: the decoded
From, Subject and Date headers together with the message body structure
(header decoding by decode_mime is outside the scope of the claims, so the
decoded header strings are taken as given). -/
structure RawMail where
  uid : String
  sender : String
  subject : String
  date : String
  msg : Msg

/-- One record of the emails.json batch written by email-service/main.py
(lines 87 to 93). -/
structure EmailRecord where
  uid : String
  sender : String
  subject : String
  date : String
  body : String

/-- Building one output record from a fetched message (lines 82 to 93 of
email-service/main.py). -/
def make_record (r : RawMail) : EmailRecord :=
  ⟨r.uid, r.sender, r.subject, r.date, get_email_body r.msg⟩

/-- The mail-store environment of one extraction run: whether the IMAP SSL
connection succeeds, whether login succeeds, the message ids returned by
search ALL, and the fetch behavior per id (none models an exception during
fetch or parse). -/
structure ImapEnv where
  connect_ok : Bool
  login_ok : Bool
  mail_ids : List String
  fetch : String → Option RawMail

/-- The window selection of email-service/main.py line 42, Python
mail_ids[-NUM_EMAILS:] when more than NUM_EMAILS ids exist (the slice with
a negative zero bound is the whole list). -/
def recent_ids (mail_ids : List String) (num_emails : ℕ) : List String :=
  if mail_ids.length > num_emails then
    (if num_emails = 0 then mail_ids
     else mail_ids.drop (mail_ids.length - num_emails))
  else mail_ids

/-- The fetch loop of email-service/main.py (lines 74 to 95): messages are
fetched in order and the first raising fetch aborts the run before
anything is written. -/
def fetch_all (ids : List String) (fetch : String → Option RawMail) :
    Option (List RawMail) :=
  match ids with
  | [] => some []
  | i :: rest =>
    (match fetch i with
     | none => none
     | some r =>
       (match fetch_all rest fetch with
        | none => none
        | some rs => some (r :: rs)))

/-- The observable outcome of one run of email-service/main.py: the
process exit code and the content of extracted_emails/emails.json if that
file was written by this run. -/
structure ExtractOutcome where
  exit_code : ℕ
  written : Option (List EmailRecord)

/-- The module-level script of email-service/main.py (lines 31 to 114): a
failing connect or login raises inside the try block, which exits with
code 1 before the output file is written; otherwise the recent window is
fetched and the batch is written only after the loop completes. -/
def email_service_main (env : ImapEnv) (num_emails : ℕ) : ExtractOutcome :=
  if !env.connect_ok then ⟨1, none⟩
  else if !env.login_ok then ⟨1, none⟩
  else
    match fetch_all (recent_ids env.mail_ids num_emails) env.fetch with
    | none => ⟨1, none⟩
    | some raws => ⟨0, some (raws.map make_record)⟩

/-! ## Standalone IMAP action script (actions-service/imap_action.py) -/

/-- The actions accepted by imap_action.py. -/
inductive ImapActionKind where
  | safe
  | flag
  | tag
  | quarantine
  | delete
deriving DecidableEq, Repr

/-- Python str.isdigit restricted to ASCII digits, which are the only
digits relevant to the integer conversion that follows. -/
def py_isdigit (s : String) : Bool :=
  !s.data.isEmpty && s.data.all Char.isDigit

/-- Python int on a digit string. -/
def py_int_of_digits (s : String) : ℕ :=
  s.data.foldl (fun acc c => 10 * acc + (c.toNat - 48)) 0

/-- The target selection of imap_action.py (lines 31 to 35): a digit
mailid below the message count indexes the search result, any other
mailid silently falls back to the last message; none models the empty
mailbox, reported as error 103 before any selection. -/
def select_mail_id (mailid : String) (ids : List String) : Option String :=
  match ids with
  | [] => none
  | _ =>
    if py_isdigit mailid && decide (py_int_of_digits mailid < ids.length) then
      ids[py_int_of_digits mailid]?
    else ids.getLast?

/-- The observable outcome of imap_action.py: the selected target and the
applied action on success, the error exit code otherwise (103 when the
mailbox is empty). -/
def imap_action_run (action : ImapActionKind) (mailid : String)
    (ids : List String) : Except ℕ (String × ImapActionKind) :=
  match select_mail_id mailid ids with
  | some target => Except.ok (target, action)
  | none => Except.error 103

end InboxGuard

namespace InboxGuard

/-! ## Theorems for the model service -/

/-- Helper: a list whose every element carries one of three mutually
exclusive prediction values has length equal to the sum of the three
filter counts. -/
theorem length_filter_three (l : List PredictionResult)
    (h : ∀ r ∈ l, r.prediction = 1 ∨ r.prediction = 0 ∨ r.prediction = -1) :
    l.length =
      (l.filter (fun r => r.prediction = 1)).length +
      (l.filter (fun r => r.prediction = 0)).length +
      (l.filter (fun r => r.prediction = -1)).length := by
  induction l with
  | nil => simp
  | cons a t ih =>
    have ha := h a (List.mem_cons_self a t)
    have ht : ∀ r ∈ t, r.prediction = 1 ∨ r.prediction = 0 ∨ r.prediction = -1 :=
      fun r hr => h r (List.mem_cons_of_mem a hr)
    rcases ha with h1 | h0 | hm1
    · simp [List.filter_cons, h1, ih ht]
      omega
    · simp [List.filter_cons, h0, ih ht]
      omega
    · simp [List.filter_cons, hm1, ih ht]
      omega

/-- Helper: with a binary oracle every verdict of analyze_email carries a
prediction in the set of the three label values. -/
theorem analyze_email_prediction_cases (oracle : Oracle) (e : EmailInput)
    (hbin : ∀ t : String, (oracle t).1 = 0 ∨ (oracle t).1 = 1) :
    (analyze_email oracle e).prediction = 1 ∨
    (analyze_email oracle e).prediction = 0 ∨
    (analyze_email oracle e).prediction = -1 := by
  unfold analyze_email
  by_cases he : extract_email_text e = ""
  · simp [he]
  · by_cases hc : pyListMax (oracle (extract_email_text e)).2 < 7/10
    · simp [he, hc]
    · rcases hbin (extract_email_text e) with h0 | h1
      · simp [he, hc, h0]
      · simp [he, hc, h1]

/-- C1: for every email whose trimmed subject+body text is nonempty,
analyze_email returns confidence equal to the maximum class probability of
the oracle, prediction -1 whenever that maximum is below 0.7 regardless of
the predicted class, and prediction 1 respectively 0 whenever the maximum
is at least 0.7 and the predicted class is 1 respectively 0. -/
theorem analyze_email_confidence_gating (oracle : Oracle) (e : EmailInput)
    (hne : extract_email_text e ≠ "") :
    (analyze_email oracle e).confidence = pyListMax (oracle (extract_email_text e)).2 ∧
    (pyListMax (oracle (extract_email_text e)).2 < 7/10 →
      (analyze_email oracle e).prediction = -1) ∧
    (7/10 ≤ pyListMax (oracle (extract_email_text e)).2 →
      (oracle (extract_email_text e)).1 = 1 →
      (analyze_email oracle e).prediction = 1) ∧
    (7/10 ≤ pyListMax (oracle (extract_email_text e)).2 →
      (oracle (extract_email_text e)).1 = 0 →
      (analyze_email oracle e).prediction = 0) := by
  unfold analyze_email
  by_cases hc : pyListMax (oracle (extract_email_text e)).2 < 7/10
  · simp [hne, hc]
  · refine ⟨by simp [hne, hc], fun h => absurd h hc, fun _ h1 => ?_, fun _ h0 => ?_⟩
    · simp [hne, hc, h1]
    · simp [hne, hc, h0]

/-- Witness for C1: a concrete oracle answering class 1 with maximum
probability 9/10 on a nonempty email yields prediction 1 with confidence
9/10. -/
theorem analyze_email_confidence_gating_witness :
    extract_email_text ⟨"2", "a@b", "Win money", "click now"⟩ ≠ "" ∧
    (analyze_email (fun _ => ((1 : ℤ), [(1 : ℚ)/10, 9/10]))
      ⟨"2", "a@b", "Win money", "click now"⟩).prediction = 1 ∧
    (analyze_email (fun _ => ((1 : ℤ), [(1 : ℚ)/10, 9/10]))
      ⟨"2", "a@b", "Win money", "click now"⟩).confidence = 9/10 := by
  have h := analyze_email_confidence_gating
    (fun _ => ((1 : ℤ), [(1 : ℚ)/10, 9/10]))
    ⟨"2", "a@b", "Win money", "click now"⟩ (by decide)
  refine ⟨by decide, h.2.2.1 ?_ rfl, ?_⟩
  · show (7 : ℚ)/10 ≤ pyListMax [(1 : ℚ)/10, 9/10]
    norm_num [pyListMax]
  · rw [h.1]
    show pyListMax [(1 : ℚ)/10, 9/10] = 9/10
    norm_num [pyListMax]

/-- C2: for every email whose subject and body, concatenated and trimmed,
are empty, analyze_email returns the short-circuit verdict: prediction 0
(the Suspicious representation of this variant, per the source comment),
confidence 0.0 and message "Empty email content", and the result does not
depend on the oracle at all. -/
theorem analyze_email_empty_content (oracle : Oracle) (e : EmailInput)
    (he : extract_email_text e = "") :
    analyze_email oracle e =
      { id := e.id
        prediction := 0
        confidence := 0
        message := "Empty email content"
        input_source := (e.subject, e.sender) } ∧
    ∀ oracle2 : Oracle, analyze_email oracle2 e = analyze_email oracle e := by
  constructor
  · unfold analyze_email
    simp [he]
  · intro oracle2
    unfold analyze_email
    simp [he]

/-- Witness for C2: the all-empty email record short-circuits under a
concrete oracle. -/
theorem analyze_email_empty_content_witness :
    extract_email_text ⟨"1", "s@t", "", ""⟩ = "" ∧
    analyze_email (fun _ => ((1 : ℤ), [(9 : ℚ)/10])) ⟨"1", "s@t", "", ""⟩ =
      { id := "1"
        prediction := 0
        confidence := 0
        message := "Empty email content"
        input_source := ("", "s@t") } :=
  ⟨by decide,
    (analyze_email_empty_content (fun _ => ((1 : ℤ), [(9 : ℚ)/10]))
      ⟨"1", "s@t", "", ""⟩ (by decide)).1⟩

/-- C4: for every batch processed by detect_phishing_batch with a binary
oracle, the summary total equals phishing plus legitimate plus suspicious,
and each of the three counts equals the number of returned verdicts whose
prediction is 1, 0 and -1 respectively. -/
theorem detect_phishing_batch_summary_partition (oracle : Oracle)
    (emails : List EmailInput)
    (hbin : ∀ t : String, (oracle t).1 = 0 ∨ (oracle t).1 = 1) :
    (detect_phishing_batch oracle emails).summary.total =
      (detect_phishing_batch oracle emails).summary.phishing +
      (detect_phishing_batch oracle emails).summary.legitimate +
      (detect_phishing_batch oracle emails).summary.suspicious ∧
    (detect_phishing_batch oracle emails).summary.phishing =
      ((detect_phishing_batch oracle emails).results.filter
        (fun r => r.prediction = 1)).length ∧
    (detect_phishing_batch oracle emails).summary.legitimate =
      ((detect_phishing_batch oracle emails).results.filter
        (fun r => r.prediction = 0)).length ∧
    (detect_phishing_batch oracle emails).summary.suspicious =
      ((detect_phishing_batch oracle emails).results.filter
        (fun r => r.prediction = -1)).length := by
  refine ⟨?_, rfl, rfl, rfl⟩
  apply length_filter_three
  intro r hr
  rcases List.mem_map.mp hr with ⟨e, _, rfl⟩
  exact analyze_email_prediction_cases oracle e hbin

/-- Witness for C4: the summary partition at a concrete two-email batch
(one empty, one phishing) under a concrete binary oracle. -/
theorem detect_phishing_batch_summary_partition_witness :
    (∀ t : String, ((fun _ => ((1 : ℤ), [(1 : ℚ)/10, 9/10])) t).1 = 0 ∨
      ((fun _ => ((1 : ℤ), [(1 : ℚ)/10, 9/10])) t).1 = 1) ∧
    (detect_phishing_batch (fun _ => ((1 : ℤ), [(1 : ℚ)/10, 9/10]))
      [⟨"1", "s", "", ""⟩, ⟨"2", "a@b", "Win money", "click now"⟩]).summary.total =
    (detect_phishing_batch (fun _ => ((1 : ℤ), [(1 : ℚ)/10, 9/10]))
      [⟨"1", "s", "", ""⟩, ⟨"2", "a@b", "Win money", "click now"⟩]).summary.phishing +
    (detect_phishing_batch (fun _ => ((1 : ℤ), [(1 : ℚ)/10, 9/10]))
      [⟨"1", "s", "", ""⟩, ⟨"2", "a@b", "Win money", "click now"⟩]).summary.legitimate +
    (detect_phishing_batch (fun _ => ((1 : ℤ), [(1 : ℚ)/10, 9/10]))
      [⟨"1", "s", "", ""⟩, ⟨"2", "a@b", "Win money", "click now"⟩]).summary.suspicious :=
  ⟨fun _ => Or.inr rfl,
    (detect_phishing_batch_summary_partition
      (fun _ => ((1 : ℤ), [(1 : ℚ)/10, 9/10]))
      [⟨"1", "s", "", ""⟩, ⟨"2", "a@b", "Win money", "click now"⟩]
      (fun _ => Or.inr rfl)).1⟩

/-! ## Theorems for the verdict store -/

/-- C5: the verdict-store round trip fails on the code.  save_predictions
writes one JSON object per line, but load_latest_predictions parses the
whole file with json.load, which raises on a two-line file; and even the
one-line file matches none of the loader schema branches (its results
branch requires a top-level results array, which the writer does not
produce).  Both loads recover the empty mapping instead of the written
batch. -/
theorem save_predictions_load_latest_roundtrip_fails :
    (save_predictions [("101", 1), ("102", 0)]).length = 2 ∧
    parse_file_content (save_predictions [("101", 1), ("102", 0)]) = [] ∧
    parse_file_content (save_predictions [("101", 1)]) = [] :=
  ⟨rfl, rfl, rfl⟩

/-- Helper: the running-maximum fold of Python max returns the element
that strictly dominates everything else in reach. -/
theorem foldl_max_mtime (f : FileRec) (l : List FileRec) :
    ∀ b : FileRec, (b = f ∨ b.mtime < f.mtime) →
      (∀ g ∈ l, g = f ∨ g.mtime < f.mtime) →
      (f ∈ l ∨ b = f) →
      l.foldl (fun best x => if best.mtime < x.mtime then x else best) b = f := by
  induction l with
  | nil =>
    intro b _ _ hmem
    rcases hmem with h | h
    · exact absurd h (List.not_mem_nil f)
    · simpa using h
  | cons x t ih =>
    intro b hb hall hmem
    simp only [List.foldl_cons]
    apply ih
    · by_cases hbx : b.mtime < x.mtime
      · rw [if_pos hbx]
        exact hall x (List.mem_cons_self x t)
      · rw [if_neg hbx]
        exact hb
    · intro g hg
      exact hall g (List.mem_cons_of_mem x hg)
    · rcases hmem with hm | rfl
      · rcases List.mem_cons.mp hm with rfl | hft
        · by_cases hbx : b.mtime < f.mtime
          · right
            rw [if_pos hbx]
          · rcases hb with rfl | hlt
            · right
              rw [if_neg hbx]
            · exact absurd hlt hbx
        · left
          exact hft
      · by_cases hbx : b.mtime < x.mtime
        · rcases hall x (List.mem_cons_self x t) with rfl | hxlt
          · right
            rw [if_pos hbx]
          · exact absurd hbx (not_lt.mpr (le_of_lt hxlt))
        · right
          rw [if_neg hbx]

/-- Helper: Python max over the matching files returns the file whose
modification time strictly dominates every other candidate. -/
theorem py_max_unique (l : List FileRec) (f : FileRec) (hf : f ∈ l)
    (hall : ∀ g ∈ l, g = f ∨ g.mtime < f.mtime) :
    py_max_by_mtime l = some f := by
  match l, hf with
  | x :: t, hf =>
    rw [show py_max_by_mtime (x :: t) =
      some (t.foldl (fun best y => if best.mtime < y.mtime then y else best) x)
      from rfl]
    congr 1
    apply foldl_max_mtime f t x
    · exact hall x (List.mem_cons_self x t)
    · intro g hg
      exact hall g (List.mem_cons_of_mem x hg)
    · rcases List.mem_cons.mp hf with rfl | hft
      · right
        rfl
      · left
        exact hft

/-- C7: when a file matches the naming convention and its modification
time strictly dominates every other matching file, load_latest_predictions
parses exactly that file, whatever the order (hence the lexical order) of
the directory listing; when no file matches, or the selected file cannot
be parsed as one JSON document, the loader returns the empty mapping
instead of raising (the warning and error logs are side effects outside
the embedding; totality of the Lean function models the absence of an
exception). -/
theorem load_latest_picks_mtime_max (files : List FileRec) (f : FileRec)
    (hf : f ∈ files) (hm : matches_pattern f.name = true)
    (hdom : ∀ g ∈ files, matches_pattern g.name = true →
      g = f ∨ g.mtime < f.mtime) :
    load_latest_predictions files = parse_file_content f.content ∧
    (∀ files2 : List FileRec, (∀ g ∈ files2, matches_pattern g.name = false) →
      load_latest_predictions files2 = []) ∧
    (json_load f.content = none → load_latest_predictions files = []) := by
  have hfil : f ∈ files.filter (fun g => matches_pattern g.name) :=
    List.mem_filter.mpr ⟨hf, hm⟩
  have hall : ∀ g ∈ files.filter (fun g => matches_pattern g.name),
      g = f ∨ g.mtime < f.mtime := by
    intro g hg
    rcases List.mem_filter.mp hg with ⟨hg1, hg2⟩
    exact hdom g hg1 hg2
  have h1 : load_latest_predictions files = parse_file_content f.content := by
    unfold load_latest_predictions
    rw [py_max_unique _ f hfil hall]
  refine ⟨h1, ?_, ?_⟩
  · intro files2 hnone
    unfold load_latest_predictions
    have : files2.filter (fun g => matches_pattern g.name) = [] := by
      rw [List.filter_eq_nil_iff]
      intro a ha
      simp [hnone a ha]
    rw [this]
    rfl
  · intro hpar
    rw [h1]
    unfold parse_file_content
    rw [hpar]

/-- Witness for C7: three concrete files; the lexically greatest matching
name has the smaller modification time, a non-matching file has the
greatest one, and the loader still picks the matching file with maximal
modification time and recovers its mapping. -/
theorem load_latest_picks_mtime_max_witness :
    (⟨"batch_api_response_20250101_000000.json", 10,
      [Json.obj [("p1", Json.obj [("prediction", Json.num 1)])]]⟩ : FileRec) ∈
      [(⟨"batch_api_response_20250101_000000.json", 10,
        [Json.obj [("p1", Json.obj [("prediction", Json.num 1)])]]⟩ : FileRec),
       ⟨"batch_api_response_99990101_000000.json", 5, []⟩,
       ⟨"notes.txt", 99, []⟩] ∧
    load_latest_predictions
      [⟨"batch_api_response_20250101_000000.json", 10,
        [Json.obj [("p1", Json.obj [("prediction", Json.num 1)])]]⟩,
       ⟨"batch_api_response_99990101_000000.json", 5, []⟩,
       ⟨"notes.txt", 99, []⟩] =
      parse_file_content
        [Json.obj [("p1", Json.obj [("prediction", Json.num 1)])]] := by
  have h := load_latest_picks_mtime_max
    [⟨"batch_api_response_20250101_000000.json", 10,
      [Json.obj [("p1", Json.obj [("prediction", Json.num 1)])]]⟩,
     ⟨"batch_api_response_99990101_000000.json", 5, []⟩,
     ⟨"notes.txt", 99, []⟩]
    ⟨"batch_api_response_20250101_000000.json", 10,
      [Json.obj [("p1", Json.obj [("prediction", Json.num 1)])]]⟩
    (List.mem_cons_self _ _) (by decide) ?_
  · exact ⟨List.mem_cons_self _ _, h.1⟩
  · intro g hg hgm
    simp only [List.mem_cons, List.not_mem_nil, or_false] at hg
    rcases hg with rfl | rfl | rfl
    · exact Or.inl rfl
    · exact Or.inr (by decide)
    · exact absurd hgm (by decide)

/-! ## Theorems for the action mapper -/

/-- C3: under the destructive strategy, perform_action selects INBOX first
and then applies exactly the mutation of the prediction value: permanent
deletion for 1, the suspicious label plus removal from the inbox for -1,
and nothing at all for 0. -/
theorem perform_action_destructive_mapping (email_uid : String)
    (prediction : ℤ) :
    (perform_action email_uid prediction).1.head? =
      some (MailOp.select "INBOX") ∧
    (prediction = 1 → perform_action email_uid prediction =
      ([MailOp.select "INBOX",
        MailOp.store_flag email_uid "\\Deleted",
        MailOp.expunge], true)) ∧
    (prediction = -1 → perform_action email_uid prediction =
      ([MailOp.select "INBOX",
        MailOp.add_gm_label email_uid "suspicious",
        MailOp.remove_gm_label email_uid "\\Inbox"], true)) ∧
    (prediction = 0 →
      perform_action email_uid prediction = ([MailOp.select "INBOX"], true) ∧
      ((perform_action email_uid prediction).1.filter MailOp.isMutation) = []) := by
  unfold perform_action
  by_cases h1 : prediction = 1
  · simp [h1]
  · by_cases hm1 : prediction = -1
    · simp [h1, hm1]
    · by_cases h0 : prediction = 0
      · simp [h1, hm1, h0, MailOp.isMutation]
      · simp [h1, hm1, h0]

/-- Witness for C3: the three destructive mappings at a concrete uid. -/
theorem perform_action_destructive_mapping_witness :
    perform_action "42" 1 =
      ([MailOp.select "INBOX",
        MailOp.store_flag "42" "\\Deleted",
        MailOp.expunge], true) ∧
    perform_action "42" (-1) =
      ([MailOp.select "INBOX",
        MailOp.add_gm_label "42" "suspicious",
        MailOp.remove_gm_label "42" "\\Inbox"], true) ∧
    perform_action "42" 0 = ([MailOp.select "INBOX"], true) :=
  ⟨(perform_action_destructive_mapping "42" 1).2.1 rfl,
   (perform_action_destructive_mapping "42" (-1)).2.2.1 rfl,
   ((perform_action_destructive_mapping "42" 0).2.2.2 rfl).1⟩

/-- Helper: on a bad stored entry, processing issues at most the folder
select and reports failure. -/
theorem bad_prediction_result (uid : String) (j : Json)
    (hbad : bad_prediction j = true) :
    process_email_by_uid uid j = ([], false) ∨
    process_email_by_uid uid j = ([MailOp.select "INBOX"], false) := by
  cases j with
  | obj fields =>
    unfold bad_prediction at hbad
    unfold process_email_by_uid
    dsimp only at hbad ⊢
    rcases hl : List.lookup "prediction" fields with _ | v
    · exact Or.inl rfl
    · rw [hl] at hbad
      cases v with
      | null => exact Or.inl rfl
      | bool b => simp at hbad
      | num p =>
        have hp : p ≠ 1 ∧ p ≠ -1 ∧ p ≠ 0 := by simpa using hbad
        right
        unfold perform_action
        simp [hp.1, hp.2.1, hp.2.2]
      | str s => exact Or.inr rfl
      | arr l => exact Or.inr rfl
      | obj o => exact Or.inr rfl
  | null => exact Or.inl rfl
  | bool b => exact Or.inl rfl
  | num n => exact Or.inl rfl
  | str s => exact Or.inl rfl
  | arr l => exact Or.inl rfl

/-- Helper: successes plus failures tally up to the whole batch. -/
theorem length_filter_bool (l : List (String × Bool)) :
    (l.filter (fun r => r.2)).length + (l.filter (fun r => !r.2)).length =
      l.length := by
  induction l with
  | nil => simp
  | cons a t ih =>
    cases h : a.2 <;> simp [List.filter_cons, h] <;> omega

/-- C6: a stored entry whose prediction is missing or outside the three
label values triggers no mailbox mutation, is recorded as a failure in the
per-id result map, and the batch continues: the result map keeps one entry
per item in order, and successes plus failures cover every item. -/
theorem process_unknown_prediction_failure (preds : List (String × Json))
    (uid : String) (j : Json) (hmem : (uid, j) ∈ preds)
    (hbad : bad_prediction j = true) :
    (process_email_by_uid uid j).2 = false ∧
    (∀ op ∈ (process_email_by_uid uid j).1, op.isMutation = false) ∧
    (uid, false) ∈ process_all_predictions preds ∧
    (process_all_predictions preds).map Prod.fst = preds.map Prod.fst ∧
    ((process_all_predictions preds).filter (fun r => r.2)).length +
      ((process_all_predictions preds).filter (fun r => !r.2)).length =
      preds.length := by
  have hres := bad_prediction_result uid j hbad
  have hfail : (process_email_by_uid uid j).2 = false := by
    rcases hres with h | h <;> rw [h]
  refine ⟨hfail, ?_, ?_, ?_, ?_⟩
  · intro op hop
    rcases hres with h | h <;> rw [h] at hop
    · exact absurd hop (List.not_mem_nil op)
    · rcases List.mem_singleton.mp hop with rfl
      rfl
  · refine List.mem_map.mpr ⟨(uid, j), hmem, ?_⟩
    simp [hfail]
  · simp [process_all_predictions, List.map_map]
  · rw [show (process_all_predictions preds).filter (fun r => r.2) =
      (process_all_predictions preds).filter (fun r => r.2) from rfl]
    have := length_filter_bool (process_all_predictions preds)
    rw [this]
    simp [process_all_predictions]

/-- Witness for C6: a two-item batch whose first entry carries the
out-of-range prediction 5 is recorded as a failure while the batch
completes with one success and one failure. -/
theorem process_unknown_prediction_failure_witness :
    bad_prediction (Json.obj [("prediction", Json.num 5)]) = true ∧
    (process_email_by_uid "9" (Json.obj [("prediction", Json.num 5)])).2 =
      false ∧
    ("9", false) ∈ process_all_predictions
      [("9", Json.obj [("prediction", Json.num 5)]),
       ("8", Json.obj [("prediction", Json.num 1)])] ∧
    ((process_all_predictions
      [("9", Json.obj [("prediction", Json.num 5)]),
       ("8", Json.obj [("prediction", Json.num 1)])]).filter
        (fun r => r.2)).length +
      ((process_all_predictions
        [("9", Json.obj [("prediction", Json.num 5)]),
         ("8", Json.obj [("prediction", Json.num 1)])]).filter
          (fun r => !r.2)).length = 2 := by
  have h := process_unknown_prediction_failure
    [("9", Json.obj [("prediction", Json.num 5)]),
     ("8", Json.obj [("prediction", Json.num 1)])]
    "9" (Json.obj [("prediction", Json.num 5)])
    (List.mem_cons_self _ _) rfl
  exact ⟨rfl, h.1, h.2.2.1, h.2.2.2.2⟩

/-! ## Theorems for the extractor -/

/-- Helper: a completed fetch loop fetched every id. -/
theorem fetch_all_isSome (ids : List String) (fetch2 : String → Option RawMail)
    (rs : List RawMail) (h : fetch_all ids fetch2 = some rs) :
    ∀ i ∈ ids, (fetch2 i).isSome = true := by
  induction ids generalizing rs with
  | nil =>
    intro i hi
    exact absurd hi (List.not_mem_nil i)
  | cons a t ih =>
    intro i hi
    simp only [fetch_all] at h
    rcases hf : fetch2 a with _ | r
    · rw [hf] at h
      exact absurd h (by simp)
    · rw [hf] at h
      rcases ht : fetch_all t fetch2 with _ | rs2
      · rw [ht] at h
        exact absurd h (by simp)
      · rcases List.mem_cons.mp hi with rfl | hit
        · simp [hf]
        · exact ih rs2 ht i hit

/-- C8: a failing mail-store connection or login makes the extraction run
exit with code 1 and write no batch file; and whenever a batch is written,
every selected message was fetched and decoded first, so a failure leaves
no partial batch on disk. -/
theorem email_service_all_or_nothing (env : ImapEnv) (num_emails : ℕ)
    (h : env.connect_ok = false ∨ env.login_ok = false) :
    (email_service_main env num_emails).exit_code = 1 ∧
    (email_service_main env num_emails).written = none ∧
    (∀ env2 : ImapEnv, ∀ n2 : ℕ, ∀ records : List EmailRecord,
      (email_service_main env2 n2).written = some records →
      ∀ i ∈ recent_ids env2.mail_ids n2, (env2.fetch i).isSome = true) := by
  have hmain : email_service_main env num_emails = ⟨1, none⟩ := by
    rcases h with h | h
    · simp [email_service_main, h]
    · cases hc : env.connect_ok
      · simp [email_service_main, hc]
      · simp [email_service_main, hc, h]
  refine ⟨by rw [hmain], by rw [hmain], ?_⟩
  intro env2 n2 records hw i hi
  cases hc : env2.connect_ok
  · simp [email_service_main, hc] at hw
  · cases hl : env2.login_ok
    · simp [email_service_main, hc, hl] at hw
    · simp only [email_service_main, hc, hl, Bool.not_true, Bool.false_eq_true,
        if_false] at hw
      rcases hfa : fetch_all (recent_ids env2.mail_ids n2) env2.fetch with _ | raws
      · rw [hfa] at hw
        exact absurd hw (by simp)
      · exact fetch_all_isSome _ _ raws hfa i hi

/-- Witness for C8: a concrete environment whose connection fails exits
with code 1 and writes nothing. -/
theorem email_service_all_or_nothing_witness :
    ((⟨false, true, ["1"], fun _ => none⟩ : ImapEnv).connect_ok = false ∨
      (⟨false, true, ["1"], fun _ => none⟩ : ImapEnv).login_ok = false) ∧
    (email_service_main ⟨false, true, ["1"], fun _ => none⟩ 10).exit_code = 1 ∧
    (email_service_main ⟨false, true, ["1"], fun _ => none⟩ 10).written = none := by
  have h := email_service_all_or_nothing
    ⟨false, true, ["1"], fun _ => none⟩ 10 (Or.inl rfl)
  exact ⟨Or.inl rfl, h.1, h.2.1⟩

/-- C9, counterexample: on a multipart message with two text/plain parts
decoding to A and B, the IMAP variant get_email_body returns the
concatenation AB, not the first selected part A that the claim describes
(and that the POP variant returns). -/
theorem get_email_body_concatenates_counterexample :
    get_email_body (Msg.multipart
      [⟨"text/plain", "", some "A", "A"⟩,
       ⟨"text/plain", "", some "B", "B"⟩]) = "AB" ∧
    pop_extract_body (Msg.multipart
      [⟨"text/plain", "", some "A", "A"⟩,
       ⟨"text/plain", "", some "B", "B"⟩]) = "A" ∧
    ("AB" : String) ≠ "A" :=
  ⟨rfl, rfl, by decide⟩

/-- Helper: the body loop of the IMAP variant appends the concatenation of
the decoded text/plain parts to its accumulator. -/
theorem get_email_body_loop_eq (parts : List MailPart) :
    ∀ acc : String, get_email_body_loop acc parts =
      acc ++ concat_text_plain_parts parts := by
  induction parts with
  | nil =>
    intro acc
    simp [get_email_body_loop, concat_text_plain_parts, String.append_empty]
  | cons p rest ih =>
    intro acc
    by_cases hp : p.content_type = "text/plain"
    · simp only [get_email_body_loop, concat_text_plain_parts, hp, if_pos, ih,
        String.append_assoc]
    · simp only [get_email_body_loop, concat_text_plain_parts, hp, ih]
      simp [String.empty_append]

/-- C9, amended: the POP variant selects the first text/plain part not
marked as an attachment (empty string when its decode raises); the IMAP
variant instead concatenates the decoded text of every text/plain part in
walk order, attachment-marked or not, substituting the raw payload text on
a raising decode; single-part messages decode the sole payload (raw text
in the IMAP variant, empty string in the POP variant, on failure); and
both extractions are total functions, so they never raise. -/
theorem body_extraction_amended :
    (∀ parts : List MailPart,
      get_email_body (Msg.multipart parts) = concat_text_plain_parts parts) ∧
    (∀ parts : List MailPart,
      pop_extract_body (Msg.multipart parts) =
        (match parts.find? (fun part =>
            part.content_type == "text/plain" &&
            !(str_contains part.content_disposition "attachment")) with
         | some part => (match part.decoded with | some s => s | none => "")
         | none => "")) ∧
    (∀ p : MailPart,
      get_email_body (Msg.single p) =
        (match p.decoded with | some s => s | none => p.raw)) ∧
    (∀ p : MailPart,
      pop_extract_body (Msg.single p) =
        (match p.decoded with | some s => s | none => "")) := by
  refine ⟨fun parts => ?_, fun parts => rfl, fun p => rfl, fun p => rfl⟩
  show get_email_body_loop "" parts = _
  rw [get_email_body_loop_eq parts ""]
  exact String.empty_append _

/-! ## Theorems for the standalone IMAP action script -/

/-- C10: with a nonempty mailbox, a mailid that is not a digit string, or
whose integer value is at least the message count, silently selects the
last message, and the requested action (permanent delete included, since
the action is universally quantified) is applied to it; the run reports
success, never an invalid-id error. -/
theorem imap_action_invalid_mailid_last (action : ImapActionKind)
    (mailid : String) (ids : List String) (hne : ids ≠ [])
    (hinv : py_isdigit mailid = false ∨
      ids.length ≤ py_int_of_digits mailid) :
    imap_action_run action mailid ids =
      Except.ok (ids.getLast hne, action) := by
  have hcond : (py_isdigit mailid &&
      decide (py_int_of_digits mailid < ids.length)) = false := by
    rcases hinv with h | h
    · simp [h]
    · simp [Nat.not_lt.mpr h]
  match ids, hne with
  | a :: t, hne =>
    simp only [imap_action_run, select_mail_id, hcond, Bool.false_eq_true,
      if_false, List.getLast?_eq_getLast_of_ne_nil hne]

/-- Witness for C10: mailid 99 on a three-message mailbox deletes the last
message and reports no error. -/
theorem imap_action_invalid_mailid_last_witness :
    (["a", "b", "c"] : List String) ≠ [] ∧
    (py_isdigit "99" = false ∨
      (["a", "b", "c"] : List String).length ≤ py_int_of_digits "99") ∧
    imap_action_run ImapActionKind.delete "99" ["a", "b", "c"] =
      Except.ok ("c", ImapActionKind.delete) := by
  have h := imap_action_invalid_mailid_last ImapActionKind.delete "99"
    ["a", "b", "c"] (by decide) (Or.inr (by decide))
  exact ⟨by decide, Or.inr (by decide), h⟩

end InboxGuard
